import Mathlib

/-!
Shallow embedding of the schema-inference / validation / normalization /
materialization engine of the `opav2` repository
(`automatizacion/utils/validators.py` and the orchestration code in
`automatizacion/models.py`), together with theorems settling the frozen
claims about it.

Python scalar cell values are modelled as a closed tagged union `PyVal`;
pandas library calls that the source relies on (`str.lower`, `pd.isna`,
`pd.to_numeric`, `pd.to_datetime`, ...) are modelled explicitly next to
the functions that use them.
-/

namespace Opav

/-- A parsed date value: either the "current timestamp" produced by
`pd.Timestamp.now()` / `GETDATE()`, or a timestamp parsed from a string. -/
inductive DateVal where
  | now : DateVal
  | ofString (s : String) : DateVal
deriving DecidableEq, Repr

/-- Model of a Python scalar value as it flows through the validators:
`None`, `bool`, `int`, `float` (modelled as an exact rational), the float
`nan`, `str`, and `pd.Timestamp`. -/
inductive PyVal where
  | none
  | bool (b : Bool)
  | int (n : Int)
  | float (q : ℚ)
  | nan
  | str (s : String)
  | timestamp (d : DateVal)
deriving DecidableEq, Repr

/-- `pd.isna` on a scalar: true exactly for `None` and float `nan`. -/
def pyIsNa : PyVal → Bool
  | .none => true
  | .nan => true
  | _ => false

/-- Python `str.lower` on one character: ASCII `A`-`Z` and the Latin-1
uppercase block `À`-`Þ` (except `×`) map to their lowercase forms 32 code
points higher; everything else is unchanged. -/
def pyLowerChar (c : Char) : Char :=
  if 0x41 ≤ c.toNat ∧ c.toNat ≤ 0x5A then Char.ofNat (c.toNat + 32)
  else if 0xC0 ≤ c.toNat ∧ c.toNat ≤ 0xDE ∧ c.toNat ≠ 0xD7 then Char.ofNat (c.toNat + 32)
  else c

/-- Python `str.upper` on one character (inverse range of `pyLowerChar`). -/
def pyUpperChar (c : Char) : Char :=
  if 0x61 ≤ c.toNat ∧ c.toNat ≤ 0x7A then Char.ofNat (c.toNat - 32)
  else if 0xE0 ≤ c.toNat ∧ c.toNat ≤ 0xFE ∧ c.toNat ≠ 0xF7 then Char.ofNat (c.toNat - 32)
  else c

/-- Python `str.lower`. -/
def pyLower (s : String) : String := String.mk (s.data.map pyLowerChar)

/-- Python `str.upper`. -/
def pyUpper (s : String) : String := String.mk (s.data.map pyUpperChar)

/-- Characters removed by Python `str.strip()` (the common whitespace). -/
def isPySpace (c : Char) : Bool :=
  c = ' ' ∨ c = '\t' ∨ c = '\n' ∨ c = '\r' ∨ c = '\x0b' ∨ c = '\x0c'

/-- Python `str.strip()`. -/
def pyStrip (s : String) : String :=
  String.mk (((s.data.dropWhile isPySpace).reverse.dropWhile isPySpace).reverse)

/-- Decimal digits of a numeral, most significant first, to a natural. -/
def decodeDigits (l : List Char) : Nat :=
  l.foldl (fun a c => a * 10 + (c.toNat - '0'.toNat)) 0

/-- Python `str(value)` restricted to the value forms the validators meet.
The `float`/`timestamp` renderings are modelled (the claims only evaluate
`str` on actual strings and integers). -/
def pyStr : PyVal → String
  | .none => "None"
  | .bool b => if b then "True" else "False"
  | .int n => toString n
  | .float q => toString q
  | .nan => "nan"
  | .str s => s
  | .timestamp .now => "Timestamp.now"
  | .timestamp (.ofString s) => s

/-- Substring test on character lists (Python `sub in s`). -/
def listContainsSub (sub : List Char) : List Char → Bool
  | [] => sub.isEmpty
  | c :: rest => sub.isPrefixOf (c :: rest) || listContainsSub sub rest

/-- Python `sub in s` for strings. -/
def containsSub (s sub : String) : Bool := listContainsSub sub.data s.data

/- ============================================
   NameNormalizer: validators.normalize_name
   ============================================ -/

/-- Characters kept by `re.sub(r'[^a-z0-9_\-]', '', ...)`. -/
def isAllowedChar (c : Char) : Bool :=
  ('a' ≤ c ∧ c ≤ 'z') ∨ ('0' ≤ c ∧ c ≤ '9') ∨ c = '_' ∨ c = '-'

/-- Is the character `_` or `-` (the class of `re.sub(r'[_\-]+', '_', ...)`). -/
def isSep (c : Char) : Bool := c = '_' ∨ c = '-'

/-- Worker for `collapseSeps`: `inRun` records whether the previous
character was part of a `_`/`-` run already rewritten to `_`. -/
def collapseSepsGo : List Char → Bool → List Char
  | [], _ => []
  | c :: rest, inRun =>
    if isSep c then
      if inRun then collapseSepsGo rest true else '_' :: collapseSepsGo rest true
    else c :: collapseSepsGo rest false

/-- `re.sub(r'[_\-]+', '_', ...)`: each maximal run of `_`/`-` becomes one `_`. -/
def collapseSeps (l : List Char) : List Char := collapseSepsGo l false

/-- ASCII digit test (`str.isdigit` on the characters that occur here). -/
def isDigitChar (c : Char) : Bool := '0' ≤ c ∧ c ≤ '9'

/-- Steps 1-7 of `normalize_name` (everything before duplicate avoidance):
lowercase+strip, spaces to `_`, strip disallowed characters, collapse
separator runs, prefix `tabla_` when starting with a digit, fall back to
`sin_nombre` when empty, truncate to 128 characters. -/
def normalizeBase (name : String) : String :=
  let name := if name = "" then "sin_nombre" else name
  let n1 := pyStrip (pyLower name)
  let n2 := n1.data.map (fun c => if c = ' ' then '_' else c)
  let n3 := n2.filter isAllowedChar
  let n4 := collapseSeps n3
  let n5 :=
    match n4 with
    | c :: _ => if isDigitChar c then "tabla_".data ++ n4 else n4
    | [] => n4
  let n6 := if n5 = [] then "sin_nombre".data else n5
  String.mk (n6.take 128)

/-- Candidate name `f"{base}_{counter}"`. -/
def candName (base : String) (counter : Nat) : String :=
  base ++ "_" ++ toString counter

/-- The `while f"{base}_{counter}" in existing_lower: counter += 1` loop,
run with explicit fuel (the Python loop always terminates because only
finitely many names exist; `existing.length + 1` steps always suffice). -/
def findFreeCounter (base : String) (existing : List String) : Nat → Nat → Nat
  | c, 0 => c
  | c, fuel + 1 =>
    if existing.contains (candName base c) then findFreeCounter base existing (c + 1) fuel
    else c

/-- `re.search(r'_(\d+)$', s)`: when the name ends in `_` followed by one
or more digits, return the base before the `_` and the numeric suffix. -/
def numericSuffix (l : List Char) : Option (List Char × Nat) :=
  let revDigits := l.reverse.takeWhile isDigitChar
  match l.reverse.drop revDigits.length with
  | '_' :: revBase =>
    if revDigits.isEmpty then none
    else some (revBase.reverse, decodeDigits revDigits.reverse)
  | _ => none

/-- The `base_name`/`counter` pair the duplicate-avoidance step starts
from: a trailing `_<digits>` suffix is split off and continued from, and
otherwise the whole name with counter 1. -/
def suffixStart (normalized : String) : String × Nat :=
  match numericSuffix normalized.data with
  | some (b, k) => (String.mk b, k + 1)
  | none => (normalized, 1)

/-- `validators.normalize_name(name, existing_names)`: SQL-safe, unique
identifier from a raw sheet/column label. -/
def normalize_name (name : String) (existing_names : List String) : String :=
  let normalized := normalizeBase name
  if existing_names = [] then normalized
  else
    let existing_lower := existing_names.map pyLower
    if existing_lower.contains normalized then
      let bc := suffixStart normalized
      candName bc.1 (findFreeCounter bc.1 existing_lower bc.2 (existing_lower.length + 1))
    else normalized

/- ============================================
   ValueNormalizer: validators.normalize_value_by_type
   ============================================ -/

/-- Parse an unsigned Python float literal of the form `digits`,
`digits.digits`, `.digits` or `digits.` into an exact rational.
(Exponent forms and `inf`/`nan` words, which `float()` also accepts, do
not occur in this codebase's data paths and are modelled as failures.) -/
def parseUnsignedRat (l : List Char) : Option ℚ :=
  let intPart := l.takeWhile isDigitChar
  match l.drop intPart.length with
  | [] => if intPart.isEmpty then none else some (decodeDigits intPart : ℚ)
  | '.' :: fracPart =>
    if fracPart.all isDigitChar ∧ ¬(intPart.isEmpty ∧ fracPart.isEmpty) then
      some (mkRat (decodeDigits intPart * 10 ^ fracPart.length + decodeDigits fracPart)
        (10 ^ fracPart.length))
    else none
  | _ => none

/-- Python `float(s)` on an already-stripped string, as an `Option`
(`none` models the `ValueError`). -/
def parseFloatStr (s : String) : Option ℚ :=
  match s.data with
  | '+' :: rest => parseUnsignedRat rest
  | '-' :: rest => (parseUnsignedRat rest).map Neg.neg
  | l => parseUnsignedRat l

/-- Python `int(q)` on a float: truncation toward zero. -/
def pyTrunc (q : ℚ) : Int :=
  Int.sign q.num * ((q.num.natAbs : Int) / (q.den : Int))

/-- `int(float(value))` in the INT branch of `normalize_value_by_type`
(with the string case stripped first, as the code does); `none` models
the caught `ValueError`/`TypeError`. `None`/`nan` never reach this branch
(they are caught by the empty-value check). -/
def toIntOpt : PyVal → Option Int
  | .str s => (parseFloatStr (pyStrip s)).map pyTrunc
  | .int n => some n
  | .bool b => some (if b then 1 else 0)
  | .float q => some (pyTrunc q)
  | _ => none

/-- `float(value)` in the FLOAT branch of `normalize_value_by_type`. -/
def toFloatOpt : PyVal → Option ℚ
  | .str s => parseFloatStr (pyStrip s)
  | .int n => some (n : ℚ)
  | .bool b => some (if b then 1 else 0)
  | .float q => some q
  | _ => none

/-- Model of `pd.to_datetime` on one string: an ISO-like recognizer
(`YYYY-MM-DD`, optionally followed by a space/`T` and more). Clearly
non-date strings — the only ones the claims evaluate it on — fail. -/
def looksLikeDate (s : String) : Bool :=
  match s.data with
  | y1 :: y2 :: y3 :: y4 :: '-' :: m1 :: m2 :: '-' :: d1 :: d2 :: rest =>
    isDigitChar y1 ∧ isDigitChar y2 ∧ isDigitChar y3 ∧ isDigitChar y4 ∧
      isDigitChar m1 ∧ isDigitChar m2 ∧ isDigitChar d1 ∧ isDigitChar d2 ∧
      (rest.isEmpty ∨ rest.head? = some ' ' ∨ rest.head? = some 'T')
  | _ => false

/-- `pd.to_datetime` on a string, as an `Option`. -/
def parseDate (s : String) : Option DateVal :=
  if looksLikeDate s then some (.ofString s) else none

/-- The integer type family test `any(t in upper_type for t in ['INT', 'BIGINT', 'SMALLINT', 'TINYINT'])`. -/
def isIntType (t : String) : Bool :=
  ["INT", "BIGINT", "SMALLINT", "TINYINT"].any (fun x => containsSub t x)

/-- The decimal family test (`FLOAT`/`DECIMAL`/`NUMERIC`/`MONEY`/`REAL`). -/
def isFloatType (t : String) : Bool :=
  ["FLOAT", "DECIMAL", "NUMERIC", "MONEY", "REAL"].any (fun x => containsSub t x)

/-- The temporal family test (`DATE`/`DATETIME`/`TIME`/`TIMESTAMP`). -/
def isDateType (t : String) : Bool :=
  ["DATE", "DATETIME", "TIME", "TIMESTAMP"].any (fun x => containsSub t x)

/-- The SQL "current timestamp" sentinel strings recognized by the code. -/
def getdateStrings : List String := ["GETDATE()", "NOW()", "CURRENT_TIMESTAMP"]

/-- `isinstance(v, str) and v.upper() in ['GETDATE()', 'NOW()', 'CURRENT_TIMESTAMP']`. -/
def isGetdateStr (v : PyVal) : Bool :=
  match v with
  | .str s => getdateStrings.contains (pyUpper s)
  | _ => false

/-- The empty-value test of `normalize_value_by_type`:
`pd.isna(value) or value == '' or (isinstance(value, str) and not value.strip())`. -/
def pyIsEmpty (v : PyVal) : Bool :=
  pyIsNa v ||
    (match v with
     | .str s => s = "" || pyStrip s = ""
     | _ => false)

/-- `default_value if default_value is not None else (None if nullable else zero)`
— the conversion-failure fallback shared by the INT/FLOAT/BIT branches. -/
def numFallback (nullable : Bool) (default_value : PyVal) (zero : PyVal) : PyVal :=
  if default_value ≠ PyVal.none then default_value
  else if nullable then .none else zero

/-- The conversion-failure fallback of the DATE branch (a string default
naming a current-timestamp function is resolved to a real timestamp). -/
def dateFallback (nullable : Bool) (default_value : PyVal) : PyVal :=
  if default_value ≠ PyVal.none then
    if isGetdateStr default_value then .timestamp .now else default_value
  else if nullable then .none else .timestamp .now

/-- `re.search(r'\((\d+)\)', s)`: the first `(` immediately followed by
one or more digits and a `)`, returning the number. -/
def firstParenNum : List Char → Option Nat
  | [] => none
  | '(' :: rest =>
    let ds := rest.takeWhile isDigitChar
    if ¬ds.isEmpty ∧ (rest.drop ds.length).head? = some ')' then some (decodeDigits ds)
    else firstParenNum rest
  | _ :: rest => firstParenNum rest

/-- Python string slicing `s[:n]`. -/
def strTake (s : String) (n : Nat) : String := String.mk (s.data.take n)

/-- `validators.normalize_value_by_type(value, sql_type, nullable, default_value)`:
normalizes one raw cell value for the configured SQL type. -/
def normalize_value_by_type (value : PyVal) (sql_type : String) (nullable : Bool)
    (default_value : PyVal) : PyVal :=
  let upper_type := pyUpper sql_type
  if pyIsEmpty value then
    if nullable then .none
    else if default_value ≠ PyVal.none then
      if isGetdateStr default_value then .timestamp .now else default_value
    else if isIntType upper_type then .int 0
    else if isFloatType upper_type then .float 0
    else if isDateType upper_type then .timestamp .now
    else if containsSub upper_type "BIT" then .int 0
    else .str ""
  else if isIntType upper_type then
    match toIntOpt value with
    | some n => .int n
    | Option.none => numFallback nullable default_value (.int 0)
  else if isFloatType upper_type then
    match toFloatOpt value with
    | some q => .float q
    | Option.none => numFallback nullable default_value (.float 0)
  else if isDateType upper_type then
    if isGetdateStr value then .timestamp .now
    else
      match value with
      | .str s =>
        match parseDate s with
        | some d => .timestamp d
        | Option.none => dateFallback nullable default_value
      | .timestamp d => .timestamp d
      | v => v
  else if containsSub upper_type "BIT" then
    match value with
    | .bool b => .int (if b then 1 else 0)
    | .int n => .int (if n ≠ 0 then 1 else 0)
    | .float q => .int (if q ≠ 0 then 1 else 0)
    | .str s =>
      let value_lower := pyStrip (pyLower s)
      if ["true", "1", "s", "si", "sí", "yes", "y"].contains value_lower then .int 1
      else if ["false", "0", "n", "no"].contains value_lower then .int 0
      else numFallback nullable default_value (.int 0)
    | _ => numFallback nullable default_value (.int 0)
  else
    match value with
    | .none => if nullable then .none else .str ""
    | v =>
      if pyIsNa v then (if nullable then .none else .str "")
      else
        let str_value := pyStr v
        if containsSub upper_type "VARCHAR" || containsSub upper_type "CHAR" then
          match firstParenNum sql_type.data with
          | some max_length =>
            if str_value.length > max_length then .str (strTake str_value max_length)
            else .str str_value
          | Option.none => .str str_value
        else .str str_value

example : normalize_value_by_type (.str "25") "INT" false (.str "0") = .int 25 := by decide
example : normalize_value_by_type (.str "") "INT" false (.str "0") = .str "0" := by decide
example : normalize_value_by_type .none "INT" false .none = .int 0 := by decide
example : normalize_value_by_type (.str "45.7") "INT" true .none = .int 45 := by decide
example : normalize_value_by_type (.str "abc") "INT" false .none = .int 0 := by decide
example : normalize_value_by_type (.str "true") "BIT" true .none = .int 1 := by decide
example : normalize_value_by_type (.str "aaaa") "VARCHAR(2)" false .none = .str "aa" := by
  decide
example : normalize_value_by_type (.str "  ") "NVARCHAR(2)" true .none = .none := by decide

/- ============================================
   TypeProfiler: validators.infer_sql_type
   ============================================ -/

/-- pandas dtype of a series, as fixed at construction time. -/
inductive Dtype where
  | int64
  | float64
  | datetime64
  | obj
  | other
deriving DecidableEq, Repr

/-- A pandas Series: its values and its dtype. `infer_sql_type` receives
the (at most `sample_size`-element) sample; for longer columns the code
takes a random sample, which is outside this embedding, so the embedding
is stated on the sample itself. -/
structure Series where
  values : List PyVal
  dtype : Dtype
deriving DecidableEq, Repr

/-- `pd.Series` built from Python strings (object dtype). -/
def strSeries (l : List String) : Series := ⟨l.map PyVal.str, .obj⟩

/-- `pd.Series` built from Python ints (int64 dtype). -/
def intSeries (l : List Int) : Series := ⟨l.map PyVal.int, .int64⟩

/-- The result dict of `infer_sql_type`. -/
structure InferResult where
  sql_type : String
  confidence : ℚ
  nullable : Bool
  default_value : Option String
  warnings : List String
  mixed_types : Bool
deriving DecidableEq, Repr

/-- `pd.to_numeric(·, errors='coerce')` on one object-series element:
numbers and bools pass through, strings are parsed, everything else
becomes `NaN` (`none`). -/
def toNumericOpt : PyVal → Option ℚ
  | .int n => some (n : ℚ)
  | .float q => some q
  | .bool b => some (if b then 1 else 0)
  | .str s => parseFloatStr (pyStrip s)
  | _ => none

/-- `pd.to_datetime(·, errors='coerce')` on one object-series element.
Numbers are accepted (pandas reads them as epoch offsets); strings go
through the date recognizer. -/
def toDatetimeOpt : PyVal → Option DateVal
  | .str s => parseDate s
  | .timestamp d => some d
  | .int n => some (.ofString (toString n))
  | .float q => some (.ofString (toString q))
  | _ => none

/-- Largest element of a list of naturals (0 for the empty list). -/
def listMaxNat (l : List Nat) : Nat := l.foldl max 0

/-- Minimum of a nonempty list of ints, with the head as seed. -/
def listMinInt : List Int → Int
  | [] => 0
  | x :: rest => rest.foldl min x

/-- Maximum of a nonempty list of ints, with the head as seed. -/
def listMaxInt : List Int → Int
  | [] => 0
  | x :: rest => rest.foldl max x

/-- The int payloads of a list of values. -/
def intPayloads (l : List PyVal) : List Int :=
  l.filterMap (fun v => match v with | .int n => some n | _ => Option.none)

/-- The NVARCHAR size chosen for a pure-text column of maximal observed
length `L`: the fixed tiers 50/100/255/500, then
`max(int(L * 1.25), 1000)` (the `* 1.25` is exact in binary floating
point for any realistic `L`, so `int(...)` is `5 * L / 4` rounded down). -/
def varcharSize (L : Nat) : Nat :=
  if L ≤ 50 then 50
  else if L ≤ 100 then 100
  else if L ≤ 255 then 255
  else if L ≤ 500 then 500
  else max (5 * L / 4) 1000

/-- The boolean vocabulary of the TIPO 1 check. -/
def boolValues : List String := ["true", "false", "1", "0", "s", "n", "si", "sí", "no", "yes"]

/-- The percentage shown in the mixed-type warnings:
`int((1 - success_rate) * 100)` with `success_rate = succ / total`. -/
def failPercent (succ total : Nat) : Nat := ((total - succ) * 100) / total

/-- `validators.infer_sql_type(series)`: infer the SQL type, confidence,
nullability and default for a column sample. -/
def infer_sql_type (sample : Series) : InferResult :=
  let null_count := (sample.values.filter pyIsNa).length
  let total_count := sample.values.length
  let non_null := sample.values.filter (fun v => !pyIsNa v)
  -- null_percentage > 0.05  ⟺  20 * null_count > total_count
  let nullable := if total_count > 0 then decide (20 * null_count > total_count) else false
  if non_null.length = 0 then
    { sql_type := "NVARCHAR(255)", confidence := 0, nullable := true,
      default_value := Option.none, warnings := ["Columna completamente vacía"],
      mixed_types := false }
  else
    let unique_values := (non_null.map (fun v => pyLower (pyStr v))).dedup
    if unique_values.all boolValues.contains ∧ unique_values.length ≤ 4 then
      { sql_type := "BIT", confidence := 1, nullable := nullable,
        default_value := some "0", warnings := [], mixed_types := false }
    else if sample.dtype = .int64 then
      let min_val := listMinInt (intPayloads non_null)
      let max_val := listMaxInt (intPayloads non_null)
      let t :=
        if 0 ≤ min_val ∧ max_val ≤ 255 then "TINYINT"
        else if -32768 ≤ min_val ∧ max_val ≤ 32767 then "SMALLINT"
        else if -2147483648 ≤ min_val ∧ max_val ≤ 2147483647 then "INT"
        else "BIGINT"
      { sql_type := t, confidence := 1, nullable := nullable,
        default_value := some "0", warnings := [], mixed_types := false }
    else if sample.dtype = .float64 then
      { sql_type := "FLOAT", confidence := 1, nullable := nullable,
        default_value := some "0.0", warnings := [], mixed_types := false }
    else if sample.dtype = .datetime64 then
      { sql_type := "DATETIME2", confidence := 1, nullable := nullable,
        default_value := some "GETDATE()", warnings := [], mixed_types := false }
    else if sample.dtype = .obj then
      let numeric_succ := (non_null.filterMap toNumericOpt).length
      -- numeric_success_rate > 0.9  ⟺  10 * numeric_succ > 9 * len(non_null)
      if 10 * numeric_succ > 9 * non_null.length then
        -- `(numeric_converted == numeric_converted.astype(int, errors='ignore')).all()`:
        -- with any NaN present `astype` fails and `errors='ignore'` keeps the floats,
        -- whose NaN entries compare unequal to themselves, so the test is true exactly
        -- when every value converted and every converted value is integral.
        let is_int := numeric_succ == non_null.length &&
          (non_null.filterMap toNumericOpt).all (fun q => q.den == 1)
        let mixed := decide (numeric_succ < non_null.length)
        { sql_type := if is_int then "INT" else "FLOAT",
          confidence := mkRat numeric_succ non_null.length, nullable := nullable,
          default_value := some (if is_int then "0" else "0.0"),
          warnings :=
            if mixed then
              ["Columna contiene " ++ toString (failPercent numeric_succ non_null.length) ++
                "% de valores no numéricos"]
            else [],
          mixed_types := mixed }
      else
        let date_succ := (non_null.filterMap toDatetimeOpt).length
        if 10 * date_succ > 9 * non_null.length then
          let mixed := decide (date_succ < non_null.length)
          { sql_type := "DATE", confidence := mkRat date_succ non_null.length,
            nullable := nullable, default_value := some "GETDATE()",
            warnings :=
              if mixed then
                ["Columna contiene " ++ toString (failPercent date_succ non_null.length) ++
                  "% de valores no convertibles a fecha"]
              else [],
            mixed_types := mixed }
        else
          let max_length := listMaxNat (non_null.map (fun v => (pyStr v).length))
          { sql_type := "NVARCHAR(" ++ toString (varcharSize max_length) ++ ")",
            confidence := 1, nullable := nullable, default_value := some "''",
            warnings := [], mixed_types := false }
    else
      { sql_type := "NVARCHAR(255)", confidence := 0, nullable := nullable,
        default_value := Option.none, warnings := ["Tipo de dato desconocido"],
        mixed_types := false }

example :
    infer_sql_type (strSeries ["true", "false", "1", "0", "yes"]) =
      { sql_type := "NVARCHAR(50)", confidence := 1, nullable := false,
        default_value := some "''", warnings := [], mixed_types := false } := by
  decide

example :
    infer_sql_type (strSeries ["true", "false", "1", "0"]) =
      { sql_type := "BIT", confidence := 1, nullable := false,
        default_value := some "0", warnings := [], mixed_types := false } := by
  decide

example : (infer_sql_type (intSeries [1, 2, 3])).sql_type = "TINYINT" := by decide
example : (infer_sql_type (intSeries [100, 5000])).sql_type = "SMALLINT" := by decide

/- ============================================
   DataFrames, column mappings, and
   validators.normalize_dataframe_by_mappings
   ============================================ -/

/-- A pandas DataFrame: named columns of values (all of equal length in
any frame built by the pipeline). -/
structure DataFrame where
  cols : List (String × List PyVal)
deriving DecidableEq, Repr

/-- One per-column configuration dict of `column_mappings`:
`renamed_to`, `sql_type` and `nullable` are read with `dict.get` defaults
at each use site, `default_value` with a `None` default. -/
structure ColumnConfig where
  renamed_to : Option String := Option.none
  sql_type : Option String := Option.none
  nullable : Option Bool := Option.none
  default_value : PyVal := .none
deriving DecidableEq, Repr

/-- A `column_mappings` dict, in insertion order. -/
abbrev Mappings := List (String × ColumnConfig)

/-- `original_col in df.columns`. -/
def dfHasCol (df : DataFrame) (col : String) : Bool :=
  (df.cols.map Prod.fst).contains col

/-- `df[col] = df[col].apply(f)`: rewrite the values of every column
named `col` (column labels are unique in the frames this pipeline
builds). -/
def dfUpdate (df : DataFrame) (col : String) (f : PyVal → PyVal) : DataFrame :=
  ⟨df.cols.map (fun p => if p.1 = col then (p.1, p.2.map f) else p)⟩

/-- `len(df)`: the number of rows (length of the first column; a frame
with no columns has no rows). -/
def dfRowCount (df : DataFrame) : Nat :=
  match df.cols with
  | [] => 0
  | c :: _ => c.2.length

/-- `validators.normalize_dataframe_by_mappings(df, column_mappings)`:
apply `normalize_value_by_type` to every value of every mapped column;
a mapping whose column is absent only contributes a warning. Returns the
rewritten frame and the warning messages, in mapping order. -/
def normalize_dataframe_by_mappings : DataFrame → Mappings → DataFrame × List String
  | df, [] => (df, [])
  | df, (original_col, config) :: rest =>
    if dfHasCol df original_col then
      let sql_type := config.sql_type.getD "NVARCHAR(255)"
      let nullable := config.nullable.getD true
      let default_value := config.default_value
      normalize_dataframe_by_mappings
        (dfUpdate df original_col
          (fun x => normalize_value_by_type x sql_type nullable default_value))
        rest
    else
      let r := normalize_dataframe_by_mappings df rest
      (r.1, ("Columna '" ++ original_col ++ "' no existe en el DataFrame") :: r.2)

/- ============================================
   MappingValidator: validators.validate_column_mappings
   ============================================ -/

/-- One entry of the error list built by `validate_column_mappings`. -/
structure ValidationError where
  errType : String
  column : String
  message : String
deriving DecidableEq, Repr

/-- Check 1: every mapped column exists in the DataFrame. -/
def missingColumnErrors (df : DataFrame) (mappings : Mappings) : List ValidationError :=
  mappings.filterMap (fun m =>
    if dfHasCol df m.1 then Option.none
    else some ⟨"COLUMN_NOT_FOUND", m.1,
      "Columna '" ++ m.1 ++ "' no existe en el archivo"⟩)

/-- Check 2: no duplicated (lowercased) `renamed_to` names; the running
`sql_names` list grows with every mapping, matching the source loop. -/
def duplicateNameErrors (mappings : Mappings) : List ValidationError :=
  (mappings.foldl
    (fun (acc : List String × List ValidationError) m =>
      let sql_name := pyLower (m.2.renamed_to.getD m.1)
      let errs :=
        if acc.1.contains sql_name then
          acc.2 ++ [⟨"DUPLICATE_SQL_NAME", m.1,
            "Nombre SQL '" ++ sql_name ++ "' está duplicado"⟩]
        else acc.2
      (acc.1 ++ [sql_name], errs))
    ([], [])).2

/-- The whitelist of valid SQL type names. -/
def validTypes : List String :=
  ["INT", "BIGINT", "SMALLINT", "TINYINT",
   "FLOAT", "REAL", "DECIMAL", "NUMERIC", "MONEY",
   "DATE", "DATETIME", "DATETIME2", "TIME", "TIMESTAMP",
   "BIT",
   "VARCHAR", "NVARCHAR", "CHAR", "NCHAR", "TEXT", "NTEXT"]

/-- Check 3: the configured type (uppercased, `''` when absent) must
contain one of the valid type names as a substring. -/
def invalidTypeErrors (mappings : Mappings) : List ValidationError :=
  mappings.filterMap (fun m =>
    let sql_type := pyUpper (m.2.sql_type.getD "")
    if validTypes.any (fun vt => containsSub sql_type vt) then Option.none
    else some ⟨"INVALID_SQL_TYPE", m.1,
      "Tipo SQL '" ++ sql_type ++ "' no es válido"⟩)

/-- `re.match(r'^[a-zA-Z_][a-zA-Z0-9_]*$', s)`. -/
def isValidSqlName (s : String) : Bool :=
  match s.data with
  | [] => false
  | c :: rest =>
    (c.isAlpha ∨ c = '_') ∧ rest.all (fun d => d.isAlphanum ∨ d = '_')

/-- Check 4: target names within length 128 and matching the identifier
pattern; each mapping can contribute both errors. -/
def invalidNameErrors (mappings : Mappings) : List ValidationError :=
  mappings.foldl
    (fun acc m =>
      let sql_name := m.2.renamed_to.getD m.1
      let acc :=
        if sql_name.length > 128 then
          acc ++ [⟨"NAME_TOO_LONG", m.1,
            "Nombre SQL '" ++ sql_name ++ "' excede 128 caracteres"⟩]
        else acc
      if isValidSqlName sql_name then acc
      else
        acc ++ [⟨"INVALID_SQL_NAME", m.1,
          "Nombre SQL '" ++ sql_name ++ "' contiene caracteres inválidos"⟩])
    []

/-- `validators.validate_column_mappings(df, column_mappings)`: the
pre-flight configuration gate; returns `(is_valid, errors)` with
`is_valid = (len(errors) == 0)`. -/
def validate_column_mappings (df : DataFrame) (mappings : Mappings) :
    Bool × List ValidationError :=
  let errors := missingColumnErrors df mappings ++ duplicateNameErrors mappings ++
    invalidTypeErrors mappings ++ invalidNameErrors mappings
  (errors.isEmpty, errors)

example :
    (validate_column_mappings ⟨[("col1", [.int 1])]⟩
      [("col1", { renamed_to := some "c1", sql_type := some "INT" })]).1 = true := by
  decide

example :
    (validate_column_mappings ⟨[("col1", [.int 1])]⟩
      [("col1", { renamed_to := some "c1", sql_type := some "INT" }),
       ("col_inexistente", { renamed_to := some "c2", sql_type := some "INT" })]).1 =
      false := by
  decide

/- ============================================
   SchemaMaterializer + unit ingest:
   models.MigrationProcess._save_dataframe_to_destination
   ============================================ -/

/-- The destination-side effects of `_save_dataframe_to_destination`, in
execution order. `dropCreateTable` stands for the committed
`IF OBJECT_ID(...) DROP TABLE` + `CREATE TABLE` pair; `validate` is the
`validate_column_mappings` call (its errors are logged only);
`insert` is the bulk `INSERT` of the normalized rows. -/
inductive SaveEvent where
  | dropCreateTable (table : String)
  | validate (is_valid : Bool) (errors : List ValidationError)
  | insert (table : String) (rows : Nat)
deriving DecidableEq, Repr

/-- Outcome of `_save_dataframe_to_destination`: the ordered destination
effects, the success flag, and the number of records inserted. External
I/O failures (connection loss, rejected rows) are outside the embedding;
this is the behaviour on the code's own control path. -/
structure SaveOutcome where
  events : List SaveEvent
  success : Bool
  records_inserted : Nat
deriving DecidableEq, Repr

/-- `models.MigrationProcess._save_dataframe_to_destination(df, table, ...)`
with `column_mappings` the configuration for this sheet: the table is
dropped and re-created (and the DDL committed) first; then, only when the
frame is non-empty, the configuration is validated — errors are logged
and processing continues — the frame is normalized, and all rows are
inserted. -/
def save_dataframe_to_destination (df : DataFrame) (table : String)
    (column_mappings : Mappings) : SaveOutcome :=
  let ddl := [SaveEvent.dropCreateTable table]
  if dfRowCount df = 0 then
    { events := ddl, success := true, records_inserted := 0 }
  else
    let validation :=
      if column_mappings.isEmpty then []
      else
        let v := validate_column_mappings df column_mappings
        [SaveEvent.validate v.1 v.2]
    -- normalization (normalize_dataframe_by_mappings) is pure and does not
    -- touch the destination; the row tuples built from the normalized frame
    -- are then inserted in one batch
    let rows := dfRowCount df
    { events := ddl ++ validation ++ [SaveEvent.insert table rows],
      success := true, records_inserted := rows }

/- ============================================
   ProcessAggregator:
   models.MigrationProcess._process_excel_sheets_individually
   ============================================ -/

/-- What processing one sheet can come to, seen from the per-sheet
`try`/`except` of `_process_excel_sheets_individually`: the call returns
`(success, info)` — here `(Bool, records)` — or raises. -/
abbrev SheetRun := Except String (Bool × Nat)

/-- Consolidated result of the multi-sheet Excel run (the fields of
`result_info_consolidado` the claims speak about; the two `detalles`
lists carry the sheet names recorded in `hojas_procesadas` /
`hojas_con_error` by the loop). -/
structure ProcessOutcome where
  success : Bool
  hojas_procesadas : Nat
  hojas_con_error : Nat
  total_hojas : Nat
  total_registros : Nat
  detalles_exitosas : List String
  detalles_error : List String
deriving DecidableEq, Repr

/-- The per-sheet loop: a successful `(True, info)` result appends to
`hojas_procesadas`, a `(False, info)` result or a raised exception
appends to `hojas_con_error`; either way the loop continues with the
next sheet. Accumulators: processed sheets, failed sheets, total rows. -/
def processSheetsLoop (runSheet : String → SheetRun) :
    List String → List String × List String × Nat
  | [] => ([], [], 0)
  | sheet :: rest =>
    let r := processSheetsLoop runSheet rest
    match runSheet sheet with
    | .ok (true, n) => (sheet :: r.1, r.2.1, n + r.2.2)
    | .ok (false, _) => (r.1, sheet :: r.2.1, r.2.2)
    | .error _ => (r.1, sheet :: r.2.1, r.2.2)

/-- `models.MigrationProcess._process_excel_sheets_individually`, with
the per-sheet work abstracted as `runSheet`: drives every selected sheet,
isolates per-sheet faults, and consolidates
`success_general = hojas_exitosas > 0`. -/
def process_excel_sheets_individually (selected_sheets : List String)
    (runSheet : String → SheetRun) : ProcessOutcome :=
  let r := processSheetsLoop runSheet selected_sheets
  let hojas_exitosas := r.1.length
  let hojas_fallidas := r.2.1.length
  { success := decide (hojas_exitosas > 0),
    hojas_procesadas := hojas_exitosas,
    hojas_con_error := hojas_fallidas,
    total_hojas := selected_sheets.length,
    total_registros := r.2.2,
    detalles_exitosas := r.1,
    detalles_error := r.2.1 }

example : normalize_name "Hoja 1" [] = "hoja_1" := by decide

/- ============================================
   Supporting lemmas
   ============================================ -/

lemma findFreeCounter_spec (base : String) (ex : List String) :
    ∀ (fuel c : Nat), (∃ k, k < fuel ∧ ex.contains (candName base (c + k)) = false) →
      c ≤ findFreeCounter base ex c fuel ∧
        ex.contains (candName base (findFreeCounter base ex c fuel)) = false ∧
        ∀ j, c ≤ j → j < findFreeCounter base ex c fuel →
          ex.contains (candName base j) = true := by
  intro fuel
  induction fuel with
  | zero =>
    intro c h
    obtain ⟨k, hk, _⟩ := h
    exact absurd hk (Nat.not_lt_zero k)
  | succ fuel ih =>
    intro c h
    by_cases hc : ex.contains (candName base c) = true
    · have hrec : findFreeCounter base ex c (fuel + 1) = findFreeCounter base ex (c + 1) fuel := by
        simp only [findFreeCounter, hc, if_true]
      obtain ⟨k, hk, hfree⟩ := h
      obtain ⟨k', rfl⟩ : ∃ k', k = k' + 1 := by
        cases k with
        | zero =>
          rw [Nat.add_zero, hc] at hfree
          exact absurd hfree (by simp)
        | succ k' => exact ⟨k', rfl⟩
      have hih := ih (c + 1)
        ⟨k', by omega, by rw [show c + 1 + k' = c + (k' + 1) by omega]; exact hfree⟩
      refine ⟨?_, ?_, ?_⟩
      · rw [hrec]
        have := hih.1
        omega
      · rw [hrec]
        exact hih.2.1
      · intro j hcj hlt
        rw [hrec] at hlt
        rcases Nat.eq_or_lt_of_le hcj with heq | hlt2
        · rw [← heq]
          exact hc
        · exact hih.2.2 j hlt2 hlt
    · have hrec : findFreeCounter base ex c (fuel + 1) = c := by
        simp only [findFreeCounter]
        rw [if_neg hc]
      rw [hrec]
      refine ⟨Nat.le_refl c, ?_, ?_⟩
      · simp only [Bool.not_eq_true] at hc
        exact hc
      · intro j hcj hlt
        omega

lemma filter_notNa_mapStr (l : List String) :
    (l.map PyVal.str).filter (fun v => !pyIsNa v) = l.map PyVal.str := by
  induction l with
  | nil => rfl
  | cons s rest ih => simp [List.filter_cons, pyIsNa, ih]

/-- Rewriting one column's values preserves every column's name and
value count. -/
lemma updateCols_nameLens (cols : List (String × List PyVal)) (col : String)
    (f : PyVal → PyVal) :
    (cols.map (fun p => if p.1 = col then (p.1, p.2.map f) else p)).map
        (fun p => (p.1, p.2.length)) =
      cols.map (fun p => (p.1, p.2.length)) := by
  induction cols with
  | nil => rfl
  | cons c rest ih =>
    simp only [List.map_cons, ih]
    by_cases h : c.1 = col <;> simp [h]

/-- Rewriting column `col` leaves every column named `c ≠ col` unchanged. -/
lemma updateCols_other (cols : List (String × List PyVal)) (col : String)
    (f : PyVal → PyVal) (c : String) (hne : c ≠ col) :
    (cols.map (fun p => if p.1 = col then (p.1, p.2.map f) else p)).filter
        (fun p => p.1 == c) =
      cols.filter (fun p => p.1 == c) := by
  induction cols with
  | nil => rfl
  | cons p0 rest ih =>
    by_cases h : p0.1 = col
    · have hcc : ¬(col = c) := fun heq => hne heq.symm
      simp [List.filter_cons, h, hcc, ih]
    · simp only [List.map_cons, if_neg h, List.filter_cons, ih]

lemma normalize_df_nameLens : ∀ (mappings : Mappings) (df : DataFrame),
    (normalize_dataframe_by_mappings df mappings).1.cols.map (fun p => (p.1, p.2.length)) =
      df.cols.map (fun p => (p.1, p.2.length))
  | [], _ => rfl
  | (col, config) :: rest, df => by
    simp only [normalize_dataframe_by_mappings]
    split
    · rw [normalize_df_nameLens rest _]
      exact updateCols_nameLens df.cols col _
    · exact normalize_df_nameLens rest df

lemma rowCount_of_nameLens {df1 df2 : DataFrame}
    (h : df1.cols.map (fun p => (p.1, p.2.length)) =
      df2.cols.map (fun p => (p.1, p.2.length))) :
    dfRowCount df1 = dfRowCount df2 := by
  unfold dfRowCount
  cases h1 : df1.cols with
  | nil =>
    cases h2 : df2.cols with
    | nil => rfl
    | cons d ds => rw [h1, h2] at h; simp at h
  | cons c cs =>
    cases h2 : df2.cols with
    | nil => rw [h1, h2] at h; simp at h
    | cons d ds =>
      rw [h1, h2] at h
      simp only [List.map_cons, List.cons.injEq, Prod.mk.injEq] at h
      exact h.1.2

lemma normalize_df_unmapped : ∀ (mappings : Mappings) (df : DataFrame) (c : String),
    (mappings.map Prod.fst).contains c = false →
    (normalize_dataframe_by_mappings df mappings).1.cols.filter (fun p => p.1 == c) =
      df.cols.filter (fun p => p.1 == c)
  | [], _, _, _ => rfl
  | (col, config) :: rest, df, c, h => by
    have hsplit : c ≠ col ∧ (rest.map Prod.fst).contains c = false := by
      simp only [List.map_cons, List.contains_cons, Bool.or_eq_false_iff,
        beq_eq_false_iff_ne] at h
      exact h
    simp only [normalize_dataframe_by_mappings]
    split
    · rw [normalize_df_unmapped rest _ c hsplit.2]
      exact updateCols_other df.cols col _ c hsplit.1
    · exact normalize_df_unmapped rest df c hsplit.2

/- ============================================
   Claim theorems
   ============================================ -/

/-- C1, counterexample: a configuration whose validation produces an
error (a mapping for a column absent from the frame) still gets its
destination table dropped/created and its rows inserted — the claim that
an ERROR-severity issue prevents all DDL and insertion is false on this
input. -/
theorem C1_counterexample :
    (validate_column_mappings ⟨[("a", [PyVal.int 1])]⟩
        [("b", { renamed_to := some "b", sql_type := some "INT" })]).2 ≠ [] ∧
      (save_dataframe_to_destination ⟨[("a", [PyVal.int 1])]⟩ "tabla_destino"
          [("b", { renamed_to := some "b", sql_type := some "INT" })]).events.contains
          (SaveEvent.dropCreateTable "tabla_destino") = true ∧
      (save_dataframe_to_destination ⟨[("a", [PyVal.int 1])]⟩ "tabla_destino"
          [("b", { renamed_to := some "b", sql_type := some "INT" })]).records_inserted = 1 := by
  refine ⟨by decide, by decide, by decide⟩

/-- C1, amended: for every non-empty frame with a non-empty column
configuration, `_save_dataframe_to_destination` executes the destination
DDL first, only then runs `validate_column_mappings`, and inserts every
row regardless of the validation outcome — validation errors are logged,
they do not gate materialization. -/
theorem C1_ddl_precedes_validation_and_insertion (df : DataFrame) (table : String)
    (mappings : Mappings) (hrows : dfRowCount df ≠ 0) (hmap : mappings ≠ []) :
    (save_dataframe_to_destination df table mappings).events =
      [SaveEvent.dropCreateTable table,
       SaveEvent.validate (validate_column_mappings df mappings).1
         (validate_column_mappings df mappings).2,
       SaveEvent.insert table (dfRowCount df)] ∧
      (save_dataframe_to_destination df table mappings).records_inserted = dfRowCount df := by
  unfold save_dataframe_to_destination
  rw [if_neg hrows]
  have hne : mappings.isEmpty = false := by
    cases mappings with
    | nil => exact absurd rfl hmap
    | cons m rest => rfl
  simp [hne]

/-- C1, witness for the amended theorem at a one-row frame whose single
mapping carries an invalid target name. -/
theorem C1_witness :
    dfRowCount ⟨[("c", [PyVal.int 2])]⟩ ≠ 0 ∧
      ([("c", { renamed_to := some "c!", sql_type := some "INT" })] : Mappings) ≠ [] ∧
      ((save_dataframe_to_destination ⟨[("c", [PyVal.int 2])]⟩ "t2"
          [("c", { renamed_to := some "c!", sql_type := some "INT" })]).events =
        [SaveEvent.dropCreateTable "t2",
         SaveEvent.validate
           (validate_column_mappings ⟨[("c", [PyVal.int 2])]⟩
             [("c", { renamed_to := some "c!", sql_type := some "INT" })]).1
           (validate_column_mappings ⟨[("c", [PyVal.int 2])]⟩
             [("c", { renamed_to := some "c!", sql_type := some "INT" })]).2,
         SaveEvent.insert "t2" (dfRowCount ⟨[("c", [PyVal.int 2])]⟩)] ∧
        (save_dataframe_to_destination ⟨[("c", [PyVal.int 2])]⟩ "t2"
            [("c", { renamed_to := some "c!", sql_type := some "INT" })]).records_inserted =
          dfRowCount ⟨[("c", [PyVal.int 2])]⟩) :=
  ⟨by decide, by decide,
    C1_ddl_precedes_validation_and_insertion _ _ _ (by decide) (by decide)⟩

lemma numFallback_ne_none (dv zero : PyVal) (hz : zero ≠ PyVal.none) :
    numFallback false dv zero ≠ PyVal.none := by
  unfold numFallback
  split
  · assumption
  · simpa using hz

lemma dateFallback_ne_none (dv : PyVal) : dateFallback false dv ≠ PyVal.none := by
  unfold dateFallback
  split
  · split
    · exact fun h => PyVal.noConfusion h
    · assumption
  · simp

/-- C4: with `nullable=False`, `normalize_value_by_type` never returns
`None` — on empty/blank input and on every conversion failure the
fallback produces the configured default or a type-specific non-null
zero value, for every input value, SQL type and default. -/
theorem C4_not_nullable_never_null (value : PyVal) (sql_type : String)
    (default_value : PyVal) :
    normalize_value_by_type value sql_type false default_value ≠ PyVal.none := by
  cases value <;>
    simp only [normalize_value_by_type, pyIsEmpty, pyIsNa, toIntOpt, toFloatOpt,
      Bool.true_or, Bool.false_or, Bool.or_false, if_true, if_false] <;>
    repeat
      first
      | exact fun h => PyVal.noConfusion h
      | assumption
      | exact numFallback_ne_none _ _ (fun h => PyVal.noConfusion h)
      | exact dateFallback_ne_none _
      | simp only [Bool.false_eq_true, if_false]
      | split

/-- C4, witness: the theorem applied at the unconvertible value `"abc"`
for `INT` with no default. -/
theorem C4_witness :
    normalize_value_by_type (.str "abc") "INT" false PyVal.none ≠ PyVal.none :=
  C4_not_nullable_never_null (.str "abc") "INT" PyVal.none

/-- Every sheet lands in exactly one of the two outcome lists. -/
lemma length_filter_split {α : Type} (p : α → Bool) (l : List α) :
    (l.filter p).length + (l.filter (fun a => !p a)).length = l.length := by
  induction l with
  | nil => rfl
  | cons a rest ih =>
    cases hp : p a <;> simp [List.filter_cons, hp] <;> omega

/-- The per-sheet loop records exactly the `(True, _)` results as
processed and everything else (a `(False, _)` result or a raised
exception) as failed, in sheet order. -/
lemma processSheetsLoop_filter (runSheet : String → SheetRun) (sheets : List String) :
    (processSheetsLoop runSheet sheets).1 =
        sheets.filter (fun s =>
          match runSheet s with | .ok (true, _) => true | _ => false) ∧
      (processSheetsLoop runSheet sheets).2.1 =
        sheets.filter (fun s =>
          !(match runSheet s with | .ok (true, _) => true | _ => false)) := by
  induction sheets with
  | nil => exact ⟨rfl, rfl⟩
  | cons sheet rest ih =>
    simp only [processSheetsLoop, List.filter_cons]
    cases hr : runSheet sheet with
    | ok p =>
      obtain ⟨b, n⟩ := p
      cases b
      · simpa [hr] using ih
      · simpa [hr] using ih
    | error e => simpa [hr] using ih

/-- C5: the aggregator `_process_excel_sheets_individually` (with the
per-sheet work abstracted) records every `(True, _)` sheet as processed
and every failed or fault-raising sheet as failed without stopping the
loop, reports `overallSuccess` true exactly when at least one sheet
succeeded, and on a 3-unit run where exactly unit 2 raises it reports
success with 2 processed and 1 failed. -/
theorem C5_fault_isolation_and_partial_success :
    (∀ (sheets : List String) (runSheet : String → SheetRun),
        (process_excel_sheets_individually sheets runSheet).detalles_exitosas =
            sheets.filter (fun s =>
              match runSheet s with | .ok (true, _) => true | _ => false) ∧
          (process_excel_sheets_individually sheets runSheet).detalles_error =
            sheets.filter (fun s =>
              !(match runSheet s with | .ok (true, _) => true | _ => false)) ∧
          (process_excel_sheets_individually sheets runSheet).hojas_procesadas +
              (process_excel_sheets_individually sheets runSheet).hojas_con_error =
            (process_excel_sheets_individually sheets runSheet).total_hojas ∧
          ((process_excel_sheets_individually sheets runSheet).success = true ↔
            0 < (process_excel_sheets_individually sheets runSheet).hojas_procesadas)) ∧
      process_excel_sheets_individually ["hoja1", "hoja2", "hoja3"]
          (fun s => if s = "hoja2" then .error "fallo de materialización"
            else .ok (true, 10)) =
        { success := true, hojas_procesadas := 2, hojas_con_error := 1,
          total_hojas := 3, total_registros := 20,
          detalles_exitosas := ["hoja1", "hoja3"], detalles_error := ["hoja2"] } := by
  constructor
  · intro sheets runSheet
    have hfilter := processSheetsLoop_filter runSheet sheets
    refine ⟨?_, ?_, ?_, ?_⟩
    · simpa [process_excel_sheets_individually] using hfilter.1
    · simpa [process_excel_sheets_individually] using hfilter.2
    · simp only [process_excel_sheets_individually, hfilter.1, hfilter.2]
      exact length_filter_split _ sheets
    · simp [process_excel_sheets_individually]
  · decide

/-- C5, witness: the general statement applied to a one-sheet run whose
sheet succeeds with 5 rows. -/
theorem C5_witness :
    (process_excel_sheets_individually ["hoja_unica"]
      (fun _ => Except.ok (true, 5))).success = true :=
  ((C5_fault_isolation_and_partial_success.1 ["hoja_unica"]
    (fun _ => Except.ok (true, 5))).2.2.2).mpr (by decide)

/-- C2: normalizing `"25"`, `"30"` and `""` for an INT mapping with
`nullable=False, default_value="0"` yields the integers 25 and 30 but the
*string* `"0"` for the empty cell — the configured default is returned
verbatim, not converted to the integer 0 the claim (and the repository's
own test suite) expects. -/
theorem C2_empty_cell_default_returned_as_string :
    normalize_value_by_type (.str "25") "INT" false (.str "0") = .int 25 ∧
      normalize_value_by_type (.str "30") "INT" false (.str "0") = .int 30 ∧
      normalize_value_by_type (.str "") "INT" false (.str "0") = .str "0" ∧
      PyVal.str "0" ≠ PyVal.int 0 := by
  refine ⟨by decide, by decide, by decide, by decide⟩

/-- C3: the column `["true","false","1","0","yes"]` has five distinct
lowercased values, so the boolean-like rule's `len(unique) <= 4` bound
fails and inference falls through to the text classifier, returning
`NVARCHAR(50)` — not the `BIT` profile the claim (and the repository's
own test suite) expects. -/
theorem C3_five_boolean_values_fall_to_text :
    infer_sql_type (strSeries ["true", "false", "1", "0", "yes"]) =
      { sql_type := "NVARCHAR(50)", confidence := 1, nullable := false,
        default_value := some "''", warnings := [], mixed_types := false } ∧
      (infer_sql_type (strSeries ["true", "false", "1", "0", "yes"])).sql_type ≠ "BIT" := by
  refine ⟨by decide, by decide⟩

/-- C6: scenario `["Ventas","ventas","Ventas"]` with accumulating
existing names yields `["ventas","ventas_1","ventas_2"]`; and in general,
whenever the normalized candidate collides (case-insensitively) with an
existing name and some suffix in the searched range is free, the result
is `base_N` for the smallest `N` — starting from an existing numeric
suffix plus one, else from 1 — that no existing name equals. -/
theorem C6_collision_appends_smallest_free_suffix :
    (normalize_name "Ventas" [] = "ventas" ∧
        normalize_name "ventas" ["ventas"] = "ventas_1" ∧
        normalize_name "Ventas" ["ventas", "ventas_1"] = "ventas_2") ∧
      ∀ (name : String) (existing_names : List String),
        existing_names ≠ [] →
        (existing_names.map pyLower).contains (normalizeBase name) = true →
        (∃ k, k < (existing_names.map pyLower).length + 1 ∧
          (existing_names.map pyLower).contains
            (candName (suffixStart (normalizeBase name)).1
              ((suffixStart (normalizeBase name)).2 + k)) = false) →
        ∃ N, normalize_name name existing_names =
            candName (suffixStart (normalizeBase name)).1 N ∧
          (suffixStart (normalizeBase name)).2 ≤ N ∧
          (existing_names.map pyLower).contains
            (candName (suffixStart (normalizeBase name)).1 N) = false ∧
          ∀ j, (suffixStart (normalizeBase name)).2 ≤ j → j < N →
            (existing_names.map pyLower).contains
              (candName (suffixStart (normalizeBase name)).1 j) = true := by
  refine ⟨⟨by decide, by decide, by decide⟩, ?_⟩
  intro name existing_names hne hcoll hex
  obtain ⟨hle, hfree, hmin⟩ := findFreeCounter_spec (suffixStart (normalizeBase name)).1
    (existing_names.map pyLower) ((existing_names.map pyLower).length + 1)
    (suffixStart (normalizeBase name)).2 hex
  refine ⟨_, ?_, hle, hfree, hmin⟩
  simp only [normalize_name]
  rw [if_neg hne, if_pos hcoll]

/-- C6, witness: the general statement applied to `"Ventas"` with
existing names `["ventas", "ventas_1"]` (suffix search starts at 1 and 2
is the first free suffix). -/
theorem C6_witness :
    (["ventas", "ventas_1"] : List String) ≠ [] ∧
      ((["ventas", "ventas_1"].map pyLower).contains (normalizeBase "Ventas") = true) ∧
      ∃ N, normalize_name "Ventas" ["ventas", "ventas_1"] =
          candName (suffixStart (normalizeBase "Ventas")).1 N ∧
        (suffixStart (normalizeBase "Ventas")).2 ≤ N ∧
        ((["ventas", "ventas_1"] : List String).map pyLower).contains
          (candName (suffixStart (normalizeBase "Ventas")).1 N) = false ∧
        ∀ j, (suffixStart (normalizeBase "Ventas")).2 ≤ j → j < N →
          ((["ventas", "ventas_1"] : List String).map pyLower).contains
            (candName (suffixStart (normalizeBase "Ventas")).1 j) = true :=
  ⟨by decide, by decide,
    C6_collision_appends_smallest_free_suffix.2 "Ventas" ["ventas", "ventas_1"]
      (by decide) (by decide) ⟨1, by decide, by decide⟩⟩

set_option maxRecDepth 8000 in
/-- C8, counterexample: a pure-text column whose longest value has 600
characters is sized NVARCHAR(1000), not the NVARCHAR(750) the claim's
`observedLength * 1.25` rule predicts — the code takes
`max(int(max_length * 1.25), 1000)` beyond the 500 tier. -/
theorem C8_counterexample :
    (infer_sql_type (strSeries [String.mk (List.replicate 600 'a')])).sql_type =
        "NVARCHAR(1000)" ∧
      (String.mk (List.replicate 600 'a')).length = 600 ∧
      ("NVARCHAR(1000)" : String) ≠ "NVARCHAR(750)" := by
  refine ⟨by decide, by decide, by decide⟩

/-- C8, amended: a non-empty string column that matches neither the
boolean-vocabulary rule nor the 90% numeric or temporal coercion
thresholds is classified as text sized through the tiers 50/100/255/500
on the maximal observed length, and beyond 500 as
`max(int(observedLength * 1.25), 1000)` — a floor of 1000 applies, so
observed length 600 yields 1000, not 750. -/
theorem C8_text_sizing_tiers_with_floor_1000 (l : List String) (hne : l ≠ [])
    (hbool : ¬(((l.map PyVal.str).map (fun v => pyLower (pyStr v))).dedup.all
          boolValues.contains = true ∧
        ((l.map PyVal.str).map (fun v => pyLower (pyStr v))).dedup.length ≤ 4))
    (hnum : 10 * ((l.map PyVal.str).filterMap toNumericOpt).length ≤ 9 * l.length)
    (hdate : 10 * ((l.map PyVal.str).filterMap toDatetimeOpt).length ≤ 9 * l.length) :
    (infer_sql_type (strSeries l)).sql_type =
      "NVARCHAR(" ++ toString
        (if listMaxNat (l.map String.length) ≤ 50 then 50
         else if listMaxNat (l.map String.length) ≤ 100 then 100
         else if listMaxNat (l.map String.length) ≤ 255 then 255
         else if listMaxNat (l.map String.length) ≤ 500 then 500
         else max (5 * listMaxNat (l.map String.length) / 4) 1000) ++ ")" := by
  have hflt := filter_notNa_mapStr l
  have hlen : ((l.map PyVal.str).filter (fun v => !pyIsNa v)).length = l.length := by
    rw [hflt, List.length_map]
  have hmaps : (l.map PyVal.str).map (fun v => (pyStr v).length) = l.map String.length := by
    rw [List.map_map]; rfl
  simp only [infer_sql_type, strSeries, hflt, hlen]
  rw [if_neg (by simpa [List.length_eq_zero] using hne)]
  rw [if_neg hbool]
  rw [if_neg (by decide), if_neg (by decide), if_neg (by decide), if_pos (by decide)]
  simp only [List.length_map]
  rw [if_neg (Nat.not_lt.mpr hnum), if_neg (Nat.not_lt.mpr hdate)]
  simp only [hmaps, varcharSize]

/-- C8, witness for the amended theorem at the single-value text column
`["hola mundo"]` (observed length 10, sized NVARCHAR(50)). -/
theorem C8_witness :
    (["hola mundo"] : List String) ≠ [] ∧
      (infer_sql_type (strSeries ["hola mundo"])).sql_type =
        "NVARCHAR(" ++ toString
          (if listMaxNat (["hola mundo"].map String.length) ≤ 50 then 50
           else if listMaxNat (["hola mundo"].map String.length) ≤ 100 then 100
           else if listMaxNat (["hola mundo"].map String.length) ≤ 255 then 255
           else if listMaxNat (["hola mundo"].map String.length) ≤ 500 then 500
           else max (5 * listMaxNat (["hola mundo"].map String.length) / 4) 1000) ++ ")" :=
  ⟨by decide,
    C8_text_sizing_tiers_with_floor_1000 ["hola mundo"] (by decide) (by decide)
      (by decide) (by decide)⟩

/-- C9, counterexample: a whitespace-only string longer than the
declared maximum is handled by the empty-value policy, not the
truncation path — `"    "` (length 4) under `NVARCHAR(2)` with
`nullable=True` normalizes to `None`, which is not a string of length 2. -/
theorem C9_counterexample :
    normalize_value_by_type (.str "    ") "NVARCHAR(2)" true PyVal.none = PyVal.none ∧
      ("    " : String).length = 4 ∧ 2 < 4 ∧
      (∀ s : String, PyVal.none ≠ PyVal.str s) := by
  refine ⟨by decide, by decide, by decide, fun s h => PyVal.noConfusion h⟩

/-- C9, amended: every *non-blank* string value longer than the maximum
declared in a fixed-length text type (a type outside the numeric,
temporal and BIT families, containing `CHAR` and a parenthesized length)
is truncated to exactly the declared maximum, with no exception raised. -/
theorem C9_overlong_text_truncated_to_max (s sql_type : String) (nullable : Bool)
    (dv : PyVal) (n : Nat)
    (hblank : pyStrip s ≠ "")
    (hint : isIntType (pyUpper sql_type) = false)
    (hfloat : isFloatType (pyUpper sql_type) = false)
    (hdate : isDateType (pyUpper sql_type) = false)
    (hbit : containsSub (pyUpper sql_type) "BIT" = false)
    (hchar : (containsSub (pyUpper sql_type) "VARCHAR" ||
      containsSub (pyUpper sql_type) "CHAR") = true)
    (hparen : firstParenNum sql_type.data = some n)
    (hlong : n < s.length) :
    normalize_value_by_type (.str s) sql_type nullable dv = .str (strTake s n) ∧
      (strTake s n).length = n := by
  have hs : s ≠ "" := by
    intro h
    exact hblank (by rw [h]; rfl)
  have hemp : pyIsEmpty (.str s) = false := by
    simp [pyIsEmpty, pyIsNa, hs, hblank]
  constructor
  · simp only [normalize_value_by_type, hemp, Bool.false_eq_true, if_false,
      hint, hfloat, hdate, hbit, hchar, if_true, hparen, pyStr]
    rw [if_pos hlong]
    rw [show pyIsNa (PyVal.str s) = false from rfl]
    simp
  · have hlt : (strTake s n).length = min n s.data.length := List.length_take n s.data
    have hsd : s.length = s.data.length := rfl
    omega

/-- C9, witness for the amended theorem: `"aaaa"` under `VARCHAR(2)`
truncates to the 2-character string `"aa"`. -/
theorem C9_witness :
    normalize_value_by_type (.str "aaaa") "VARCHAR(2)" true PyVal.none =
        .str (strTake "aaaa" 2) ∧
      (strTake "aaaa" 2).length = 2 :=
  C9_overlong_text_truncated_to_max "aaaa" "VARCHAR(2)" true PyVal.none 2
    (by decide) (by decide) (by decide) (by decide) (by decide) (by decide)
    (by decide) (by decide)

/-- C10: whole-frame normalization preserves every column's name and its
number of values (hence the row count), and every column whose name is
not a mapping key keeps exactly its original values. -/
theorem C10_frame_shape_preserved (df : DataFrame) (mappings : Mappings) :
    (normalize_dataframe_by_mappings df mappings).1.cols.map (fun p => (p.1, p.2.length)) =
        df.cols.map (fun p => (p.1, p.2.length)) ∧
      dfRowCount (normalize_dataframe_by_mappings df mappings).1 = dfRowCount df ∧
      ∀ c, (mappings.map Prod.fst).contains c = false →
        (normalize_dataframe_by_mappings df mappings).1.cols.filter (fun p => p.1 == c) =
          df.cols.filter (fun p => p.1 == c) :=
  ⟨normalize_df_nameLens mappings df,
   rowCount_of_nameLens (normalize_df_nameLens mappings df),
   fun c hc => normalize_df_unmapped mappings df c hc⟩

/-- C10, witness: a two-column frame with one INT mapping keeps the
unmapped column `col2` byte-for-byte. -/
theorem C10_witness :
    (normalize_dataframe_by_mappings
        ⟨[("edad", [PyVal.str "25", PyVal.none]), ("col2", [PyVal.str "a", PyVal.str "b"])]⟩
        [("edad", { sql_type := some "INT", nullable := some false, default_value := PyVal.str "0" })]).1.cols.filter
        (fun p => p.1 == "col2") =
      (⟨[("edad", [PyVal.str "25", PyVal.none]),
        ("col2", [PyVal.str "a", PyVal.str "b"])]⟩ : DataFrame).cols.filter
        (fun p => p.1 == "col2") :=
  (C10_frame_shape_preserved
    ⟨[("edad", [PyVal.str "25", PyVal.none]), ("col2", [PyVal.str "a", PyVal.str "b"])]⟩
    [("edad", { sql_type := some "INT", nullable := some false, default_value := PyVal.str "0" })]).2.2
    "col2" (by decide)

/-- C7: `normalize_name` deletes accented letters instead of
transliterating them: `"Año 2024"` normalizes to `"ao_2024"` (the `ñ` is
stripped by the `[^a-z0-9_\-]` substitution), not to the `"ano_2024"`
the claim (and the repository's own test suite) expects. -/
theorem C7_accented_letters_deleted_not_transliterated :
    normalize_name "Año 2024" [] = "ao_2024" ∧ "ao_2024" ≠ "ano_2024" := by
  refine ⟨by decide, by decide⟩
example : normalize_name "Datos-Ventas!" [] = "datos_ventas" := by decide
example : normalize_name "123tabla" [] = "tabla_123tabla" := by decide
example : normalize_name "Hoja" ["hoja", "hoja_1"] = "hoja_2" := by decide
example : normalize_name "Año 2024" [] = "ao_2024" := by decide
example : normalize_name "Ventas" [] = "ventas" := by decide
example : normalize_name "ventas" ["ventas"] = "ventas_1" := by decide
example : normalize_name "Ventas" ["ventas", "ventas_1"] = "ventas_2" := by decide

end Opav
